import Mathlib

/-!
Shallow embedding of the polygon editing and erasure engine of the
archeotrace repository (`ArtifactGraphicsScene.py`, `artifact_polygon_item.py`,
`editable_polygon_item.py`, `undo_commands.py`).

Conventions of the embedding:
* scene coordinates are rationals (`ℚ`), points are pairs;
* Qt graphics items that merely provide visual feedback (paths drawn on the
  scene) are modelled by the data the Python code keeps next to them
  (point lists) plus a `Bool` recording whether the item is present;
* Python object identity matters to the source (removal by reference,
  `item in self.items()`); artifacts therefore carry a numeric `id`,
  fresh ids are drawn from a counter `nextId`;
* calls into the external geometry libraries (shapely buffering and
  set-difference, Qt point containment / path intersection tests) are
  modelled by oracle structures passed as parameters;
* a Python exception (`AttributeError`, `NameError`, ...) is modelled by an
  `Except String` result or an explicit error flag.
-/

/-- A 2-D point in scene coordinates. -/
abbrev Pt : Type := ℚ × ℚ

/-- Squared Euclidean distance between two points. -/
def dist2 (p q : Pt) : ℚ :=
  (p.1 - q.1) * (p.1 - q.1) + (p.2 - q.2) * (p.2 - q.2)

/-- An RGBA color (`QColor`); `QColor(r, g, b)` has alpha 255. -/
structure Color where
  r : ℕ
  g : ℕ
  b : ℕ
  a : ℕ
  deriving DecidableEq, Repr

/-- A stroke style (`QPen`): color and width. -/
structure Pen where
  color : Color
  width : ℚ
  deriving DecidableEq, Repr

/-- A fill style (`QBrush`): color. -/
structure Brush where
  color : Color
  deriving DecidableEq, Repr

/-- The data of an `ArtifactPolygonItem` living in the scene: its polygon
(`QPolygonF`, the closing vertex not duplicated), its text attribute, its pen
and its brush.  The `id` models Python object identity. -/
structure Artifact where
  id : ℕ
  polygon : List Pt
  text : String
  pen : Pen
  brush : Brush
  deriving DecidableEq, Repr

/-- The per-item snapshot dictionaries (`{'polygon': ..., 'text': ...,
'pen': ..., 'brush': ...}`) used by `ErasePolygonCommand`. -/
structure ArtData where
  polygon : List Pt
  text : String
  pen : Pen
  brush : Brush
  deriving DecidableEq, Repr

/-- The interaction modes of `ViewerMode` (viewer_mode.py). -/
inductive ViewerMode where
  | normal
  | point
  | brush
  | eraser
  | freehand
  | edit
  deriving DecidableEq, Repr

/-- The state of an `ArtifactGraphicsScene` as far as the claims are
concerned: the current mode, brush size, the three in-progress gesture
states (brush paint, eraser, free-hand), the artifact items in the scene,
an id counter modelling object allocation, and the application undo
ledger (a count of pushed entries; no code in the scene ever pushes). -/
structure SceneState where
  currentMode : ViewerMode
  brushSize : ℚ
  /-- `self.eraser_path : QPainterPath` — mirrors the captured points;
  `none` models the Python `None`. -/
  eraserPath : Option (List Pt)
  /-- `self.eraser_item` is present in the scene. -/
  eraserItem : Bool
  /-- `self.eraser_points`. -/
  eraserPoints : List Pt
  /-- `self.current_paint_path` (brush mode), `none` for Python `None`. -/
  paintPath : Option (List Pt)
  /-- `self.current_paint_item` is present. -/
  paintItem : Bool
  /-- `self.freehand_points`. -/
  freehandPoints : List Pt
  /-- `self.freehand_path` is not `None`. -/
  freehandPath : Bool
  /-- `self.freehand_item` is present. -/
  freehandItem : Bool
  /-- `self.preview_polygon` is set and truthy. -/
  previewPolygon : Bool
  /-- The `ArtifactPolygonItem`s in the scene, in insertion order. -/
  artifacts : List Artifact
  /-- Fresh-id counter modelling Python object allocation. -/
  nextId : ℕ
  /-- Number of entries on the application `QUndoStack`. -/
  undoCount : ℕ
  deriving DecidableEq, Repr

/-- `ArtifactGraphicsScene.erase` (ArtifactGraphicsScene.py lines 102-109):
if no eraser path exists, return; else extend the path with `position` and,
when the visual item is present, update it and append `position` to
`eraser_points`.  There is no distance test of any kind. -/
def sceneErase (s : SceneState) (position : Pt) : SceneState :=
  match s.eraserPath with
  | none => s
  | some path =>
      let path := path ++ [position]
      if s.eraserItem then
        { s with eraserPath := some path,
                 eraserPoints := s.eraserPoints ++ [position] }
      else
        { s with eraserPath := some path }

/-- `ArtifactGraphicsScene.continue_freehand_drawing` (lines 740-754): return
unless a free-hand path and item exist; if there is a last captured point and
the new position is at Euclidean distance < 2.0 from it, skip; otherwise
append the position (distance compared on squares: `d < 2 ↔ d² < 4`). -/
def continueFreehandDrawing (s : SceneState) (position : Pt) : SceneState :=
  if s.freehandPath = false ∨ s.freehandItem = false then s
  else
    match s.freehandPoints.getLast? with
    | some lastPoint =>
        if dist2 position lastPoint < 4 then s
        else { s with freehandPoints := s.freehandPoints ++ [position] }
    | none => { s with freehandPoints := s.freehandPoints ++ [position] }

/-- `ArtifactGraphicsScene.set_mode` (lines 682-699): store the mode, remove a
preview polygon if present, remove the eraser visual item (clearing the eraser
path and points) if present, and clean up the free-hand state
(`cleanup_freehand_drawing`, lines 808-814).  The in-progress brush paint
state (`current_paint_path` / `current_paint_item`) is not touched. -/
def setMode (s : SceneState) (mode : ViewerMode) : SceneState :=
  let s := { s with currentMode := mode }
  let s := if s.previewPolygon then { s with previewPolygon := false } else s
  let s :=
    if s.eraserItem then
      { s with eraserItem := false, eraserPath := none, eraserPoints := [] }
    else s
  -- cleanup_freehand_drawing
  let s := if s.freehandItem then { s with freehandItem := false } else s
  { s with freehandPath := false, freehandPoints := [] }

/-- `ArtifactGraphicsScene.smooth_eraser_path` (lines 187-210): with fewer
than 3 points, a copy of the points; otherwise a centered moving average of
window 3 with edge padding, so `out[i] = (p[max(i-1,0)] + p[i] +
p[min(i+1,n-1)]) / 3`, preserving the point count. -/
def smoothEraserPath (points : List Pt) : List Pt :=
  if points.length < 3 then points
  else
    let n := points.length
    (List.range n).map fun i =>
      let pPrev := points.getD (i - 1) (0, 0)
      let pCur := points.getD i (0, 0)
      let pNext := points.getD (min (i + 1) (n - 1)) (0, 0)
      (((pPrev.1 + pCur.1 + pNext.1) / 3), ((pPrev.2 + pCur.2 + pNext.2) / 3))

/-- One connected piece of a shapely set-difference result: its exterior ring
coordinates exactly as shapely reports them (closed: first coordinate repeated
at the end) and its shapely-computed `area`. -/
structure Piece where
  ring : List Pt
  area : ℚ
  deriving DecidableEq, Repr

/-- Oracle for the shapely geometry library.  `R` is the abstract type of the
buffered eraser region.  `buffer pts radius` models
`eraser_path_to_polygon`'s `LineString(pts).buffer(radius, ...)` (plus the
union of a MultiPolygon result); `none` models an empty or invalid result.
`difference poly region` models `ShapelyPolygon(poly).difference(region)`
decomposed into its list of polygon pieces (a single `Polygon` result is the
one-element list). -/
structure ShapelyOracle (R : Type) where
  buffer : List Pt → ℚ → Option R
  difference : List Pt → R → List Piece

/-- Oracle for the Qt geometric predicates used by `stop_erasing`:
membership of an item in `self.items(eraser_bounds)`, the even-odd
`QPolygonF.containsPoint` test, and the `polygon.intersects(segment)` test. -/
structure QtGeom where
  inEraserBounds : List Pt → List Pt → Bool
  containsPoint : List Pt → Pt → Bool
  segmentIntersects : List Pt → Pt → Pt → Bool

/-- `min_area_threshold` (ArtifactGraphicsScene.py line 285). -/
def minAreaThreshold : ℚ := 100

/-- The selection of surviving difference pieces
(ArtifactGraphicsScene.py lines 304-314): every piece whose area is at least
`min_area_threshold` is kept, with no other condition. -/
def resultPolygons (pieces : List Piece) : List Piece :=
  pieces.filter fun geom => minAreaThreshold ≤ geom.area

/-- `use_random_colors = len(result_polygons) > 1` (line 343): the erase is
treated as a split (random recoloring) exactly when more than one piece
survived the minimum-area filter. -/
def useRandomColors (pieces : List Piece) : Bool :=
  1 < (resultPolygons pieces).length

/-- `shapely_to_qpolygonf` (lines 254-264): `None` for an empty polygon,
otherwise the exterior coordinates with a duplicated closing point removed. -/
def shapelyToQPolygonF (ring : List Pt) : Option (List Pt) :=
  if ring = [] then none
  else if 1 < ring.length ∧ ring.head? = ring.getLast? then some ring.dropLast
  else some ring

/-- The pen given to a split piece (lines 356-362): a random color with alpha
255, keeping the original pen's width. -/
def randomPen (randFn : ℕ → ℕ) (randIdx : ℕ) (originalPen : Pen) : Pen :=
  { color := ⟨randFn randIdx, randFn (randIdx + 1), randFn (randIdx + 2), 255⟩,
    width := originalPen.width }

/-- The brush given to a split piece (line 364): the same random color with
alpha 50. -/
def randomBrush (randFn : ℕ → ℕ) (randIdx : ℕ) : Brush :=
  { color := ⟨randFn randIdx, randFn (randIdx + 1), randFn (randIdx + 2), 50⟩ }

/-- The creation loop over `result_polygons` (lines 345-372): each piece whose
stripped ring still has at least 3 points becomes a new `ArtifactPolygonItem`
carrying the original text; with `use_random_colors` its style is freshly
randomized (3 draws from the random stream), otherwise it receives the
original pen and brush.  Returns the created artifacts together with the
advanced random-stream index and id counter. -/
def createResultItems (randFn : ℕ → ℕ) (originalText : String)
    (originalPen : Pen) (originalBrush : Brush) (useRandom : Bool) :
    List Piece → ℕ → ℕ → List Artifact × ℕ × ℕ
  | [], randIdx, nextId => ([], randIdx, nextId)
  | piece :: rest, randIdx, nextId =>
      match shapelyToQPolygonF piece.ring with
      | none => createResultItems randFn originalText originalPen originalBrush useRandom rest randIdx nextId
      | some qpolygon =>
          if 3 ≤ qpolygon.length then
            let item : Artifact :=
              if useRandom then
                { id := nextId, polygon := qpolygon, text := originalText,
                  pen := randomPen randFn randIdx originalPen,
                  brush := randomBrush randFn randIdx }
              else
                { id := nextId, polygon := qpolygon, text := originalText,
                  pen := originalPen, brush := originalBrush }
            let next := createResultItems randFn originalText originalPen originalBrush useRandom
              rest (if useRandom then randIdx + 3 else randIdx) (nextId + 1)
            (item :: next.1, next.2)
          else
            createResultItems randFn originalText originalPen originalBrush useRandom rest randIdx nextId

/-- The body of the per-polygon loop of `process_manual_erasing`
(lines 288-372) for one target item.  `inScene` is `polygon_item in
self.items()`.  Notes on fidelity:
* an empty target polygon gives an empty `ShapelyPolygon` — `continue`;
  a 1- or 2-point polygon makes the `ShapelyPolygon` constructor raise —
  modelled as an error (caught by the function's outer handler);
* whenever the target is still in the scene, both the replace branch
  (line 326) and the complete-erase branch (line 334) read
  `polygon_item.background_item`; `ArtifactPolygonItem` never defines that
  attribute (artifact_polygon_item.py lines 144-148 define only
  `text_attribute` and `text_item`), so the access raises `AttributeError`
  before `removeItem(polygon_item)` is reached;
* only a target that is *not* in the scene reaches the item-creation code.
Returns the artifacts to add plus the advanced random index and id counter. -/
def processOneTarget (randFn : ℕ → ℕ) (item : Artifact) (inScene : Bool)
    (pieces : List Piece) (randIdx nextId : ℕ) :
    Except String (List Artifact × ℕ × ℕ) :=
  if item.polygon = [] then .ok ([], randIdx, nextId)
  else if item.polygon.length < 3 then .error "ValueError: invalid LinearRing"
  else
    let results := resultPolygons pieces
    if results ≠ [] then
      if inScene then
        .error "AttributeError: ArtifactPolygonItem has no attribute background_item"
      else
        .ok (createResultItems randFn item.text item.pen item.brush
          (useRandomColors pieces) results randIdx nextId)
    else
      if inScene then
        .error "AttributeError: ArtifactPolygonItem has no attribute background_item"
      else
        .ok ([], randIdx, nextId)

/-- The loop of `process_manual_erasing` over `polygons_to_erase`
(lines 288-372), with the surrounding `try`/`except` (lines 271, 377-380):
the first exception aborts the whole loop, keeping whatever scene mutations
happened before it. -/
def eraseLoop {R : Type} (diff : List Pt → R → List Piece) (randFn : ℕ → ℕ)
    (region : R) : List Artifact → SceneState → ℕ → SceneState
  | [], s, _ => s
  | item :: rest, s, randIdx =>
      let inScene := s.artifacts.any fun a => a.id = item.id
      match processOneTarget randFn item inScene (diff item.polygon region) randIdx s.nextId with
      | .error _ => s
      | .ok (newArts, randIdx2, nextId2) =>
          eraseLoop diff randFn region rest
            { s with artifacts := s.artifacts ++ newArts, nextId := nextId2 } randIdx2

/-- `process_manual_erasing` (lines 266-380): guard on targets and captured
points, smooth the stroke, build the buffered eraser region
(radius `max(0.5, brush_size / 2)`), then run the per-polygon loop.  The
application undo ledger is never touched anywhere in this function. -/
def processManualErasing {R : Type} (sh : ShapelyOracle R) (randFn : ℕ → ℕ)
    (s : SceneState) (polygonsToErase : List Artifact) : SceneState :=
  if polygonsToErase = [] ∨ s.eraserPoints = [] then s
  else
    let smoothed := smoothEraserPath s.eraserPoints
    if smoothed.length < 2 then s
    else
      match sh.buffer smoothed (max (1 / 2) (s.brushSize / 2)) with
      | none => s
      | some region => eraseLoop sh.difference randFn region polygonsToErase s 0

/-- The intersection test of `stop_erasing` (lines 136-167): some captured
point lies inside the polygon (even-odd rule), or some consecutive stroke
segment intersects the polygon. -/
def eraserIntersects (g : QtGeom) (poly : List Pt) (pts : List Pt) : Bool :=
  pts.any (g.containsPoint poly) ||
    (pts.zip pts.tail).any fun pq => g.segmentIntersects poly pq.1 pq.2

/-- `stop_erasing` (lines 111-185): with fewer than 2 captured points only
the visual feedback is cleaned up; otherwise the candidate polygons are those
inside the eraser path's bounding rectangle that pass the intersection test,
`process_manual_erasing` runs on them when any exist, and the visual feedback
is cleaned up. -/
def stopErasing {R : Type} (g : QtGeom) (sh : ShapelyOracle R)
    (randFn : ℕ → ℕ) (s : SceneState) : SceneState :=
  if s.eraserPoints.length < 2 then
    if s.eraserItem then
      { s with eraserItem := false, eraserPath := none, eraserPoints := [] }
    else s
  else
    let pathPts := s.eraserPath.getD []
    let polygonsToErase :=
      s.artifacts.filter fun item =>
        g.inEraserBounds item.polygon pathPts &&
          eraserIntersects g item.polygon s.eraserPoints
    let s2 :=
      if polygonsToErase ≠ [] then processManualErasing sh randFn s polygonsToErase
      else s
    if s2.eraserItem then
      { s2 with eraserItem := false, eraserPath := none, eraserPoints := [] }
    else s2

/-- The component-significance filter of the mask-based path
`process_erased_region` (ArtifactGraphicsScene.py lines 510-525): component
labels `i + 1` whose area strictly exceeds 10% of the total area of all
components. -/
def significantComponents (componentAreas : List ℚ) : List ℕ :=
  let totalArea := componentAreas.sum
  (List.range componentAreas.length).filterMap fun i =>
    if totalArea * (1 / 10) < componentAreas.getD i 0 then some (i + 1) else none

/-- `process_erased_region` treats the erase as a true split exactly when
more than one significant component remains (line 527). -/
def trueSplit (componentAreas : List ℚ) : Bool :=
  1 < (significantComponents componentAreas).length

/-- A `NodeHandle`'s claim-relevant state (editable_polygon_item.py lines
33-56): its managed selection flag and drag-start snapshot.  The handle for
vertex `i` sits at position `i` of `EditState.handles`. -/
structure Handle where
  isSelected : Bool
  dragStartPos : Option Pt
  deriving DecidableEq, Repr

instance : Inhabited Handle := ⟨⟨false, none⟩⟩

/-- The claim-relevant state of an `EditablePolygonItem` in editing mode:
the polygon, its node handles, the batch-update guard, the pending
pre-drag polygon snapshot, and the signals emitted so far
(`polygon_modified` as a count, `polygon_shape_changed` as the list of
`(old_polygon, new_polygon)` records). -/
structure EditState where
  polygon : List Pt
  handles : List Handle
  isBatchUpdating : Bool
  pendingOldPolygon : Option (List Pt)
  modifiedEmits : ℕ
  shapeEmits : List (List Pt × List Pt)
  deriving DecidableEq, Repr

/-- `get_selected_nodes` (lines 486-492): the indices of the selected
handles, in increasing order. -/
def getSelectedNodes (st : EditState) : List ℕ :=
  (List.range st.handles.length).filter fun i => (st.handles.getD i default).isSelected

/-- `select_node` (lines 494-504).  When `addToSelection` is false every
handle is first deselected (a plain loop, emitting nothing); only then is the
index bounds-checked, and only an in-range index selects its handle and emits
`polygon_modified`.  A negative Python index fails the `0 <= node_index`
guard exactly like the out-of-range case, so indices are modelled as `ℕ`. -/
def selectNode (st : EditState) (nodeIndex : ℕ) (addToSelection : Bool) : EditState :=
  let handles :=
    if addToSelection then st.handles
    else st.handles.map fun h => { h with isSelected := false }
  if h : nodeIndex < handles.length then
    { st with
        handles := handles.set nodeIndex { handles.get ⟨nodeIndex, h⟩ with isSelected := true },
        modifiedEmits := st.modifiedEmits + 1 }
  else
    { st with handles := handles }

/-- `create_node_handles` (lines 356-376): all handles are recreated, one
unselected handle per vertex (assuming the item is in a scene and the polygon
has at least 3 vertices). -/
def createNodeHandles (polygon : List Pt) : List Handle :=
  if polygon.length < 3 then []
  else List.replicate polygon.length default

/-- `delete_selected_nodes` (lines 528-589): the selected indices are sorted
in decreasing order and removed one by one (`polygon.remove(index)` deletes
*at* the index of a `QPolygonF`); an empty selection, or a deletion that
would leave fewer than 3 vertices, returns with no change at all.  On
success the handles are recreated and `polygon_modified` is emitted; no
shape-change record is produced (the `old_polygon` snapshot of line 541 is
never used). -/
def deleteSelectedNodes (st : EditState) : EditState :=
  let selectedIndices := (getSelectedNodes st).reverse
  if selectedIndices = [] then st
  else if (st.polygon.length : ℤ) - selectedIndices.length < 3 then st
  else
    let polygon := selectedIndices.foldl (fun p i => p.eraseIdx i) st.polygon
    { st with
        polygon := polygon,
        handles := createNodeHandles polygon,
        modifiedEmits := st.modifiedEmits + 1 }

/-- `move_selected_nodes_by_delta` (lines 661-706).  The selected vertices
are moved to `drag_start_pos + delta`, storing a drag-start snapshot first
for any selected handle that has none — the deltas are relative to the
stored drag start, not accumulated.  The final statement
`self.polygon_shape_changed.emit(old_polygon, new_polygon)` (line 703) reads
the name `old_polygon`, which is bound nowhere in the function (and is no
module global), so Python raises `NameError` there: the vertex updates
before it persist, the `finally` block resets `is_batch_updating`, no signal
is emitted, and the exception propagates.  The returned `Bool` is true when
the call raised. -/
def moveSelectedNodesByDelta (st : EditState) (delta : Pt) (_draggedNodeIndex : ℕ) :
    EditState × Bool :=
  let selectedIndices := getSelectedNodes st
  -- first loop (lines 671-675): store drag starts for selected handles
  let handles := st.handles.mapIdx fun i h =>
    if i ∈ selectedIndices ∧ h.dragStartPos = none then
      { h with dragStartPos := some (st.polygon.getD i (0, 0)) }
    else h
  -- second loop (lines 678-684): move each selected vertex from its drag start
  let polygon := st.polygon.mapIdx fun i p =>
    if i ∈ selectedIndices ∧ i < handles.length then
      match (handles.getD i default).dragStartPos with
      | some start => (start.1 + delta.1, start.2 + delta.2)
      | none => p
    else p
  -- line 703 raises NameError; `finally` resets the batch flag
  ({ st with polygon := polygon, handles := handles, isBatchUpdating := false }, true)

/-- The scene items seen by `self.scene.items()` during the fallback searches
of `ErasePolygonCommand`: Qt returns items topmost (most recently added)
first. -/
def sceneItems (s : SceneState) : List Artifact :=
  s.artifacts.reverse

/-- `scene.removeItem` for a list of found items: each one still in the scene
is removed (text items are not modelled). -/
def removeItems (s : SceneState) (itemsToRemove : List Artifact) : SceneState :=
  { s with
      artifacts := s.artifacts.filter fun a => ¬ itemsToRemove.any fun b => b.id = a.id }

/-- Creating an `ArtifactPolygonItem` from a stored snapshot and adding it to
the scene (undo_commands.py lines 192-199 and 264-271): a fresh item with the
snapshot's polygon, text, pen and brush. -/
def restoreFromData (s : SceneState) (data : ArtData) : SceneState × Artifact :=
  let item : Artifact :=
    { id := s.nextId, polygon := data.polygon, text := data.text,
      pen := data.pen, brush := data.brush }
  ({ s with artifacts := s.artifacts ++ [item], nextId := s.nextId + 1 }, item)

/-- `ErasePolygonCommand`'s mutable state (undo_commands.py lines 132-147):
item references, pre-captured data, and the first-redo flag, which the
constructor sets because the eraser has already done the work and
`QUndoStack.push()` calls `redo()` immediately. -/
structure EraseCmd where
  originalItems : List Artifact
  newItems : List Artifact
  originalData : List ArtData
  newData : List ArtData
  redoAlreadyApplied : Bool
  deriving DecidableEq, Repr

/-- `ErasePolygonCommand.__init__` (lines 132-147): stores everything and
sets `_redo_already_applied = True`. -/
def mkEraseCmd (originalItems newItems : List Artifact)
    (originalData newData : List ArtData) : EraseCmd :=
  { originalItems := originalItems, newItems := newItems,
    originalData := originalData, newData := newData,
    redoAlreadyApplied := true }

instance : Inhabited ArtData :=
  ⟨{ polygon := [], text := "", pen := ⟨⟨0, 0, 0, 255⟩, 0⟩, brush := ⟨⟨0, 0, 0, 255⟩⟩ }⟩

/-- The data-based fallback search shared by `undo` (lines 160-180) and
`redo` (lines 219-240): first each already-found item claims the first data
index with matching polygon point count and text; then every unclaimed data
entry claims the first scene item (not already scheduled for removal)
matching its point count and text. -/
def fallbackFind (s : SceneState) (dataList : List ArtData)
    (itemsToRemove : List Artifact) : List Artifact :=
  let foundIndices := itemsToRemove.foldl (fun found item =>
    match (List.range dataList.length).find? (fun i =>
        let d := dataList.getD i default
        item.polygon.length = d.polygon.length ∧ item.text = d.text) with
    | some i => found ++ [i]
    | none => found) []
  (List.range dataList.length).foldl (fun acc i =>
    if i ∈ foundIndices then acc
    else
      match (sceneItems s).find? (fun item =>
          let d := dataList.getD i default
          (¬ acc.any fun b => b.id = item.id) ∧
            item.polygon.length = d.polygon.length ∧ item.text = d.text) with
      | some item => acc ++ [item]
      | none => acc) itemsToRemove

/-- `ErasePolygonCommand.undo` (lines 149-202): remove the new items (stored
references first, data-based fallback when some are missing), then recreate
every original from `original_data` and make the restored list the new
`original_items`. -/
def eraseCmdUndo (cmd : EraseCmd) (s : SceneState) : EraseCmd × SceneState :=
  let itemsToRemove := cmd.newItems.filter fun item =>
    s.artifacts.any fun a => a.id = item.id
  let itemsToRemove :=
    if itemsToRemove.length < cmd.newData.length then
      fallbackFind s cmd.newData itemsToRemove
    else itemsToRemove
  let s := removeItems s itemsToRemove
  let restore := cmd.originalData.foldl (fun (acc : SceneState × List Artifact) data =>
    let step := restoreFromData acc.1 data
    (step.1, acc.2 ++ [step.2])) (s, [])
  ({ cmd with originalItems := restore.2 }, restore.1)

/-- `ErasePolygonCommand.redo` (lines 204-274): the first call after
construction only clears `_redo_already_applied` and returns, leaving the
scene untouched; afterwards it removes the original items (stored references
first, data-based fallback when some are missing) and ensures the new items
are in the scene, recreating from `new_data` any that are not. -/
def eraseCmdRedo (cmd : EraseCmd) (s : SceneState) : EraseCmd × SceneState :=
  if cmd.redoAlreadyApplied then
    ({ cmd with redoAlreadyApplied := false }, s)
  else
    let itemsToRemove := cmd.originalItems.filter fun item =>
      s.artifacts.any fun a => a.id = item.id
    let itemsToRemove :=
      if itemsToRemove.length < cmd.originalData.length then
        fallbackFind s cmd.originalData itemsToRemove
      else itemsToRemove
    let s := removeItems s itemsToRemove
    let existingNewItems := cmd.newItems.filter fun item =>
      s.artifacts.any fun a => a.id = item.id
    let restore := (List.range cmd.newData.length).foldl
      (fun (acc : SceneState × List Artifact) i =>
        match existingNewItems.get? i with
        | some item =>
            if acc.1.artifacts.any fun a => a.id = item.id then
              (acc.1, acc.2 ++ [item])
            else
              let step := restoreFromData acc.1 (cmd.newData.getD i default)
              (step.1, acc.2 ++ [step.2])
        | none =>
            let step := restoreFromData acc.1 (cmd.newData.getD i default)
            (step.1, acc.2 ++ [step.2])) (s, [])
    ({ cmd with newItems := restore.2 }, restore.1)

/-- The artifacts produced by recreating a list of snapshots in order with
consecutive fresh ids (specification-side description of the restore loops
of `ErasePolygonCommand`). -/
def mkRestoredArts (nextId : ℕ) : List ArtData → List Artifact
  | [] => []
  | d :: rest =>
      { id := nextId, polygon := d.polygon, text := d.text,
        pen := d.pen, brush := d.brush } :: mkRestoredArts (nextId + 1) rest

/-! ## Helper lemmas -/

theorem replicate_set_true (n i : ℕ) :
    (List.replicate n false).set i true = (List.range n).map fun j => decide (j = i) := by
  apply List.ext_getElem
  · simp
  · intro j h1 h2
    simp only [List.getElem_set, List.getElem_replicate, List.getElem_map, List.getElem_range]
    by_cases hj : i = j
    · simp [hj]
    · rw [if_neg hj]
      symm
      simp only [decide_eq_false_iff_not]
      intro hh
      exact hj hh.symm

theorem length_filter_not_bool (l : List ℕ) (Q : ℕ → Bool) :
    (l.filter fun i => !(Q i)).length = l.length - (l.filter Q).length := by
  induction l with
  | nil => rfl
  | cons a t ih =>
      have hle := List.length_filter_le Q t
      by_cases h : Q a = true
      · simp [List.filter_cons, h, ih]
      · have h2 : Q a = false := by simpa using h
        simp [List.filter_cons, h2, ih]
        omega

/-! ## C10 — non-additive node selection -/

/-- C10: `select_node(index, add_to_selection=False)` deselects every handle
before the bounds check, so an out-of-range index leaves no node selected and
emits no `polygon_modified` notification, while an in-range index leaves
exactly that node selected (and emits one notification). -/
theorem selectNode_deselects_before_bounds_check (st : EditState) (i : ℕ) :
    (st.handles.length ≤ i →
      ((selectNode st i false).handles.map Handle.isSelected
          = List.replicate st.handles.length false) ∧
        (selectNode st i false).modifiedEmits = st.modifiedEmits ∧
        (selectNode st i false).polygon = st.polygon) ∧
    (i < st.handles.length →
      ((selectNode st i false).handles.map Handle.isSelected
          = (List.range st.handles.length).map fun j => decide (j = i)) ∧
        (selectNode st i false).modifiedEmits = st.modifiedEmits + 1) := by
  have hmm : ∀ hs : List Handle,
      (hs.map fun h => { h with isSelected := false }).map Handle.isSelected
        = List.replicate hs.length false := by
    intro hs
    induction hs with
    | nil => rfl
    | cons a t ih => simp [ih, List.replicate_succ]
  constructor
  · intro hge
    have hni : ¬ i < (st.handles.map fun h => { h with isSelected := false }).length := by
      simp
      omega
    simp only [selectNode, Bool.false_eq_true, if_false, dif_neg hni]
    exact ⟨hmm st.handles, trivial, trivial⟩
  · intro hlt
    have hpi : i < (st.handles.map fun h => { h with isSelected := false }).length := by
      simpa using hlt
    simp only [selectNode, Bool.false_eq_true, if_false, dif_pos hpi]
    constructor
    · rw [List.map_set, hmm st.handles]
      exact replicate_set_true st.handles.length i
    · trivial

/-- Witness for C10: on a 3-handle polygon, index 7 is out of range and leaves
no node selected with no notification, while index 1 leaves exactly node 1
selected. -/
theorem selectNode_deselects_before_bounds_check_witness :
    (((selectNode ⟨[(0, 0), (4, 0), (4, 4)],
          [⟨true, none⟩, ⟨false, none⟩, ⟨true, none⟩], false, none, 0, []⟩ 7 false).handles.map
            Handle.isSelected = List.replicate 3 false) ∧
      (selectNode ⟨[(0, 0), (4, 0), (4, 4)],
          [⟨true, none⟩, ⟨false, none⟩, ⟨true, none⟩], false, none, 0, []⟩ 7 false).modifiedEmits
        = 0) ∧
    (((selectNode ⟨[(0, 0), (4, 0), (4, 4)],
          [⟨true, none⟩, ⟨false, none⟩, ⟨true, none⟩], false, none, 0, []⟩ 1 false).handles.map
            Handle.isSelected = [false, true, false]) ∧
      (selectNode ⟨[(0, 0), (4, 0), (4, 4)],
          [⟨true, none⟩, ⟨false, none⟩, ⟨true, none⟩], false, none, 0, []⟩ 1 false).modifiedEmits
        = 1) := by
  have h7 := selectNode_deselects_before_bounds_check
    ⟨[(0, 0), (4, 0), (4, 4)], [⟨true, none⟩, ⟨false, none⟩, ⟨true, none⟩], false, none, 0, []⟩ 7
  have h1 := selectNode_deselects_before_bounds_check
    ⟨[(0, 0), (4, 0), (4, 4)], [⟨true, none⟩, ⟨false, none⟩, ⟨true, none⟩], false, none, 0, []⟩ 1
  refine ⟨⟨(h7.1 (by decide)).1, (h7.1 (by decide)).2.1⟩, ?_, (h1.2 (by decide)).2⟩
  rw [(h1.2 (by decide)).1]
  decide

/-! ## C7 — stroke-capture spacing threshold -/

/-- Counterexample to C7 as stated: during an active eraser stroke whose last
captured point is `(0, 0)`, `erase((1, 0))` appends the new point even though
its distance to the previous captured point is 1, not more than 2: the
eraser capture applies no minimum-spacing test at all. -/
theorem eraser_capture_ignores_spacing_counterexample :
    (sceneErase
        ⟨ViewerMode.eraser, 5, some [(0, 0)], true, [(0, 0)], none, false, [], false, false,
          false, [], 0, 0⟩ (1, 0)).eraserPoints = [(0, 0), (1, 0)] ∧
      dist2 (1, 0) (0, 0) < 4 := by
  constructor
  · rfl
  · norm_num [dist2]

/-- C7 amended: the 2-world-unit minimum spacing applies only to free-hand
capture — `continue_freehand_drawing` appends a point exactly when its
squared distance to the last captured point is at least 4 (distance at least
2, the threshold being inclusive) — while the eraser's `erase` appends every
position unconditionally whenever a stroke is active. -/
theorem stroke_capture_spacing_amended (s : SceneState) (position : Pt) :
    (∀ path, s.eraserPath = some path → s.eraserItem = true →
      (sceneErase s position).eraserPoints = s.eraserPoints ++ [position]) ∧
    (∀ lastPoint, s.freehandPath = true → s.freehandItem = true →
      s.freehandPoints.getLast? = some lastPoint →
      (continueFreehandDrawing s position).freehandPoints =
        (if 4 ≤ dist2 position lastPoint then s.freehandPoints ++ [position]
         else s.freehandPoints)) := by
  constructor
  · intro path hpath hitem
    unfold sceneErase
    rw [hpath]
    simp only [hitem, if_true]
  · intro lastPoint hfp hfi hlast
    by_cases hd : dist2 position lastPoint < 4
    · have h4 : ¬ 4 ≤ dist2 position lastPoint := by linarith
      simp [continueFreehandDrawing, hfp, hfi, hlast, hd, h4]
    · have h4 : 4 ≤ dist2 position lastPoint := by linarith
      simp [continueFreehandDrawing, hfp, hfi, hlast, hd, h4]

/-- Witness for C7's amended theorem: a concrete active eraser stroke appends
`(4, 3)` at distance 1 from the last point, and a concrete free-hand stroke
skips that same point. -/
theorem stroke_capture_spacing_amended_witness :
    ((sceneErase
        ⟨ViewerMode.eraser, 5, some [(3, 3)], true, [(3, 3)], none, false, [], false, false,
          false, [], 0, 0⟩ (4, 3)).eraserPoints = [(3, 3), (4, 3)]) ∧
    ((continueFreehandDrawing
        ⟨ViewerMode.freehand, 5, none, false, [], none, false, [(3, 3)], true, true,
          false, [], 0, 0⟩ (4, 3)).freehandPoints = [(3, 3)]) := by
  have h1 := (stroke_capture_spacing_amended
    ⟨ViewerMode.eraser, 5, some [(3, 3)], true, [(3, 3)], none, false, [], false, false,
      false, [], 0, 0⟩ (4, 3)).1 [(3, 3)] rfl rfl
  have h2 := (stroke_capture_spacing_amended
    ⟨ViewerMode.freehand, 5, none, false, [], none, false, [(3, 3)], true, true,
      false, [], 0, 0⟩ (4, 3)).2 (3, 3) rfl rfl rfl
  refine ⟨h1, ?_⟩
  rw [h2, if_neg (by norm_num [dist2])]

/-! ## C8 — mode switches and in-progress gesture state -/

/-- Counterexample to C8 as stated: switching modes during an in-progress
brush paint stroke leaves `current_paint_path` / `current_paint_item`
completely untouched — the brush gesture state is *not* discarded. -/
theorem setMode_keeps_paint_stroke_counterexample :
    ((setMode
        ⟨ViewerMode.brush, 5, none, false, [], some [(0, 0), (9, 9)], true, [], false, false,
          false, [], 0, 0⟩ ViewerMode.normal).paintItem = true) ∧
    ((setMode
        ⟨ViewerMode.brush, 5, none, false, [], some [(0, 0), (9, 9)], true, [], false, false,
          false, [], 0, 0⟩ ViewerMode.normal).paintPath = some [(0, 0), (9, 9)]) := by
  exact ⟨rfl, rfl⟩

/-- C8 amended: `set_mode` discards the in-progress eraser stroke (whose
visual item is present), the free-hand stroke and any preview polygon, and
creates no undo entry and touches no artifact — but the in-progress brush
paint stroke is left untouched. -/
theorem setMode_discards_eraser_freehand_amended (s : SceneState) (mode : ViewerMode)
    (hEraser : s.eraserItem = true) :
    (setMode s mode).currentMode = mode ∧
    (setMode s mode).eraserItem = false ∧
    (setMode s mode).eraserPath = none ∧
    (setMode s mode).eraserPoints = [] ∧
    (setMode s mode).freehandItem = false ∧
    (setMode s mode).freehandPath = false ∧
    (setMode s mode).freehandPoints = [] ∧
    (setMode s mode).previewPolygon = false ∧
    (setMode s mode).undoCount = s.undoCount ∧
    (setMode s mode).artifacts = s.artifacts ∧
    (setMode s mode).paintItem = s.paintItem ∧
    (setMode s mode).paintPath = s.paintPath := by
  unfold setMode
  by_cases hp : s.previewPolygon <;> by_cases hf : s.freehandItem <;>
    simp [hp, hf, hEraser]

/-- Witness for C8's amended theorem at a concrete state with an active
eraser stroke, an active free-hand stroke and a preview polygon. -/
theorem setMode_discards_eraser_freehand_amended_witness :
    (setMode
        ⟨ViewerMode.eraser, 5, some [(0, 0), (7, 0)], true, [(0, 0), (7, 0)], none, false,
          [(1, 1)], true, true, true, [], 0, 0⟩ ViewerMode.normal).eraserItem = false ∧
    (setMode
        ⟨ViewerMode.eraser, 5, some [(0, 0), (7, 0)], true, [(0, 0), (7, 0)], none, false,
          [(1, 1)], true, true, true, [], 0, 0⟩ ViewerMode.normal).eraserPoints = [] ∧
    (setMode
        ⟨ViewerMode.eraser, 5, some [(0, 0), (7, 0)], true, [(0, 0), (7, 0)], none, false,
          [(1, 1)], true, true, true, [], 0, 0⟩ ViewerMode.normal).freehandPoints = [] ∧
    (setMode
        ⟨ViewerMode.eraser, 5, some [(0, 0), (7, 0)], true, [(0, 0), (7, 0)], none, false,
          [(1, 1)], true, true, true, [], 0, 0⟩ ViewerMode.normal).undoCount = 0 := by
  have h := setMode_discards_eraser_freehand_amended
    ⟨ViewerMode.eraser, 5, some [(0, 0), (7, 0)], true, [(0, 0), (7, 0)], none, false,
      [(1, 1)], true, true, true, [], 0, 0⟩ ViewerMode.normal rfl
  exact ⟨h.2.1, h.2.2.2.1, h.2.2.2.2.2.2.1, h.2.2.2.2.2.2.2.2.1⟩

/-! ## C5 — group drag of selected nodes -/

/-- C5 (code bug, evaluated at the failing input): dragging node 0 of a
square while nodes 0 and 1 are selected moves both selected vertices by the
delta relative to their stored drag-start positions, but the call then
raises `NameError` at the final
`self.polygon_shape_changed.emit(old_polygon, new_polygon)` — `old_polygon`
is never assigned in `move_selected_nodes_by_delta` — so no shape-change
record is ever emitted for the gesture (the claim expects exactly one,
emitted on release). -/
theorem group_drag_moves_then_raises_name_error :
    (moveSelectedNodesByDelta
        ⟨[(0, 0), (10, 0), (10, 10), (0, 10)],
          [⟨true, none⟩, ⟨true, none⟩, ⟨false, none⟩, ⟨false, none⟩],
          false, none, 0, []⟩ (5, 5) 0).2 = true ∧
    (moveSelectedNodesByDelta
        ⟨[(0, 0), (10, 0), (10, 10), (0, 10)],
          [⟨true, none⟩, ⟨true, none⟩, ⟨false, none⟩, ⟨false, none⟩],
          false, none, 0, []⟩ (5, 5) 0).1.shapeEmits = [] ∧
    (moveSelectedNodesByDelta
        ⟨[(0, 0), (10, 0), (10, 10), (0, 10)],
          [⟨true, none⟩, ⟨true, none⟩, ⟨false, none⟩, ⟨false, none⟩],
          false, none, 0, []⟩ (5, 5) 0).1.polygon
      = [(5, 5), (15, 5), (10, 10), (0, 10)] ∧
    (moveSelectedNodesByDelta
        ⟨[(0, 0), (10, 0), (10, 10), (0, 10)],
          [⟨true, none⟩, ⟨true, none⟩, ⟨false, none⟩, ⟨false, none⟩],
          false, none, 0, []⟩ (5, 5) 0).1.handles
      = [⟨true, some (0, 0)⟩, ⟨true, some (10, 0)⟩, ⟨false, none⟩, ⟨false, none⟩] := by
  refine ⟨rfl, rfl, ?_, rfl⟩
  have h : (moveSelectedNodesByDelta
      ⟨[(0, 0), (10, 0), (10, 10), (0, 10)],
        [⟨true, none⟩, ⟨true, none⟩, ⟨false, none⟩, ⟨false, none⟩],
        false, none, 0, []⟩ (5, 5) 0).1.polygon
      = [((0 : ℚ) + 5, (0 : ℚ) + 5), ((10 : ℚ) + 5, (0 : ℚ) + 5), (10, 10), (0, 10)] := rfl
  rw [h]
  norm_num

/-! ## C6 — erase stroke that intersects no polygon -/

/-- C6: finishing an eraser stroke for which no captured point lies inside
any artifact polygon and no stroke segment intersects any artifact polygon
leaves the artifact set exactly unchanged and creates no undo entry; only
the temporary eraser visual feedback (item, path, captured points) is
removed, and the other gesture states are untouched. -/
theorem stopErasing_no_intersection_noop {R : Type} (g : QtGeom) (sh : ShapelyOracle R)
    (randFn : ℕ → ℕ) (s : SceneState)
    (hItem : s.eraserItem = true)
    (hContains : ∀ a ∈ s.artifacts, ∀ p ∈ s.eraserPoints, g.containsPoint a.polygon p = false)
    (hSeg : ∀ a ∈ s.artifacts, ∀ pq ∈ s.eraserPoints.zip s.eraserPoints.tail,
      g.segmentIntersects a.polygon pq.1 pq.2 = false) :
    (stopErasing g sh randFn s).artifacts = s.artifacts ∧
    (stopErasing g sh randFn s).undoCount = s.undoCount ∧
    (stopErasing g sh randFn s).eraserItem = false ∧
    (stopErasing g sh randFn s).eraserPath = none ∧
    (stopErasing g sh randFn s).eraserPoints = [] ∧
    (stopErasing g sh randFn s).paintPath = s.paintPath ∧
    (stopErasing g sh randFn s).paintItem = s.paintItem ∧
    (stopErasing g sh randFn s).freehandPoints = s.freehandPoints ∧
    (stopErasing g sh randFn s).currentMode = s.currentMode := by
  have hint : ∀ a ∈ s.artifacts, eraserIntersects g a.polygon s.eraserPoints = false := by
    intro a ha
    unfold eraserIntersects
    rw [Bool.or_eq_false_iff]
    constructor
    · rw [List.any_eq_false]
      intro p hp
      simp [hContains a ha p hp]
    · rw [List.any_eq_false]
      intro pq hpq
      simp [hSeg a ha pq hpq]
  have hfilter : (s.artifacts.filter fun item =>
      g.inEraserBounds item.polygon (s.eraserPath.getD []) &&
        eraserIntersects g item.polygon s.eraserPoints) = [] := by
    rw [List.filter_eq_nil_iff]
    intro a ha
    rw [hint a ha]
    simp
  by_cases hlen : s.eraserPoints.length < 2
  · simp [stopErasing, hlen, hItem]
  · simp [stopErasing, hlen, hfilter, hItem]

/-- Witness for C6: a concrete scene holding one triangle, an eraser stroke
of two points, and geometry oracles reporting no containment and no segment
intersection: the artifact set is unchanged and the visual feedback is gone. -/
theorem stopErasing_no_intersection_noop_witness :
    (stopErasing ⟨fun _ _ => true, fun _ _ => false, fun _ _ _ => false⟩
        (⟨fun _ _ => some (), fun _ _ => []⟩ : ShapelyOracle Unit) (fun _ => 0)
        ⟨ViewerMode.eraser, 5, some [(500, 500), (600, 600)], true, [(500, 500), (600, 600)],
          none, false, [], false, false, false,
          [⟨0, [(0, 0), (40, 0), (40, 40)], "triangle", ⟨⟨255, 0, 0, 255⟩, 2⟩, ⟨⟨255, 0, 0, 50⟩⟩⟩],
          1, 0⟩).artifacts
      = [⟨0, [(0, 0), (40, 0), (40, 40)], "triangle", ⟨⟨255, 0, 0, 255⟩, 2⟩, ⟨⟨255, 0, 0, 50⟩⟩⟩] ∧
    (stopErasing ⟨fun _ _ => true, fun _ _ => false, fun _ _ _ => false⟩
        (⟨fun _ _ => some (), fun _ _ => []⟩ : ShapelyOracle Unit) (fun _ => 0)
        ⟨ViewerMode.eraser, 5, some [(500, 500), (600, 600)], true, [(500, 500), (600, 600)],
          none, false, [], false, false, false,
          [⟨0, [(0, 0), (40, 0), (40, 40)], "triangle", ⟨⟨255, 0, 0, 255⟩, 2⟩, ⟨⟨255, 0, 0, 50⟩⟩⟩],
          1, 0⟩).undoCount = 0 ∧
    (stopErasing ⟨fun _ _ => true, fun _ _ => false, fun _ _ _ => false⟩
        (⟨fun _ _ => some (), fun _ _ => []⟩ : ShapelyOracle Unit) (fun _ => 0)
        ⟨ViewerMode.eraser, 5, some [(500, 500), (600, 600)], true, [(500, 500), (600, 600)],
          none, false, [], false, false, false,
          [⟨0, [(0, 0), (40, 0), (40, 40)], "triangle", ⟨⟨255, 0, 0, 255⟩, 2⟩, ⟨⟨255, 0, 0, 50⟩⟩⟩],
          1, 0⟩).eraserItem = false := by
  have h := stopErasing_no_intersection_noop
    ⟨fun _ _ => true, fun _ _ => false, fun _ _ _ => false⟩
    (⟨fun _ _ => some (), fun _ _ => []⟩ : ShapelyOracle Unit) (fun _ => 0)
    ⟨ViewerMode.eraser, 5, some [(500, 500), (600, 600)], true, [(500, 500), (600, 600)],
      none, false, [], false, false, false,
      [⟨0, [(0, 0), (40, 0), (40, 40)], "triangle", ⟨⟨255, 0, 0, 255⟩, 2⟩, ⟨⟨255, 0, 0, 50⟩⟩⟩],
      1, 0⟩ rfl (fun _ _ _ _ => rfl) (fun _ _ _ _ => rfl)
  exact ⟨h.1, h.2.1, h.2.2.1⟩

/-! ## C4 — deleting selected vertices -/

theorem filterMap_getElem_length {α : Type} :
    ∀ (is : List ℕ) (l : List α), (∀ i ∈ is, i < l.length) →
      (is.filterMap fun i => l[i]?).length = is.length := by
  intro is l h
  induction is with
  | nil => rfl
  | cons a t ih =>
      have ha : a < l.length := h a (List.mem_cons_self a t)
      rw [List.filterMap_cons]
      rw [List.getElem?_eq_getElem ha]
      simp only [List.length_cons]
      rw [ih fun i hi => h i (List.mem_cons_of_mem a hi)]

theorem foldr_eraseIdx_filter_range {α : Type} (Q : ℕ → Bool) :
    ∀ (n : ℕ) (l : List α), n ≤ l.length →
      ((List.range n).filter Q).foldr (fun i acc => acc.eraseIdx i) l
        = (((List.range n).filter fun i => !(Q i)).filterMap fun i => l[i]?) ++ l.drop n := by
  intro n
  induction n with
  | zero => intro l _; simp
  | succ n ih =>
      intro l h
      rw [List.range_succ, List.filter_append, List.filter_append, List.foldr_append]
      by_cases hq : Q n = true
      · have hfq : List.filter Q [n] = [n] := by simp [hq]
        have hfnq : (List.filter (fun i => !(Q i)) [n]) = [] := by simp [hq]
        rw [hfq, hfnq, List.append_nil]
        simp only [List.foldr_cons, List.foldr_nil]
        have hlen : n ≤ (l.eraseIdx n).length := by
          rw [List.length_eraseIdx, if_pos (by omega)]
          omega
        rw [ih (l.eraseIdx n) hlen]
        congr 1
        · apply List.filterMap_congr
          intro i hi
          have hin : i < n := List.mem_range.mp (List.mem_filter.mp hi).1
          rw [List.eraseIdx_eq_take_drop_succ, List.getElem?_append,
            if_pos (by rw [List.length_take]; exact lt_min hin (by omega)),
            List.getElem?_take, if_pos hin]
        · rw [List.eraseIdx_eq_take_drop_succ,
            List.drop_left' (by rw [List.length_take]; exact min_eq_left (by omega))]
      · have hq2 : Q n = false := by simpa using hq
        have hfq : List.filter Q [n] = [] := by simp [hq2]
        have hfnq : (List.filter (fun i => !(Q i)) [n]) = [n] := by simp [hq2]
        rw [hfq, hfnq]
        simp only [List.foldr_nil]
        rw [ih l (by omega), List.filterMap_append,
          List.drop_eq_getElem_cons (show n < l.length by omega), List.append_assoc]
        congr 1
        simp [List.getElem?_eq_getElem (show n < l.length by omega)]

/-- C4: `delete_selected_nodes` removes the selected vertices highest index
first — the result keeps exactly the vertices at unselected indices, in
order — and maintains the minimum-vertex invariant: the resulting vertex
count is always at least 3, and a request whose removal would leave fewer
than 3 vertices is a silent no-op leaving the whole edit state (polygon,
handles, emitted records) unchanged; no shape-change undo record is ever
produced. -/
theorem deleteSelectedNodes_min_vertex (st : EditState)
    (h3 : 3 ≤ st.polygon.length) (hlen : st.handles.length = st.polygon.length) :
    3 ≤ (deleteSelectedNodes st).polygon.length ∧
    ((st.polygon.length : ℤ) - (getSelectedNodes st).length < 3 → deleteSelectedNodes st = st) ∧
    (getSelectedNodes st ≠ [] →
      3 ≤ (st.polygon.length : ℤ) - (getSelectedNodes st).length →
      (deleteSelectedNodes st).polygon
        = ((List.range st.handles.length).filter fun i =>
            !((st.handles.getD i default).isSelected)).filterMap fun i => st.polygon[i]?) ∧
    (deleteSelectedNodes st).shapeEmits = st.shapeEmits := by
  have hselrfl : getSelectedNodes st
      = (List.range st.handles.length).filter fun i =>
          (st.handles.getD i default).isSelected := rfl
  by_cases hempty : (getSelectedNodes st).reverse = []
  · have hres : deleteSelectedNodes st = st := by
      unfold deleteSelectedNodes
      rw [if_pos hempty]
    refine ⟨by rw [hres]; exact h3, fun _ => hres, fun hne _ => ?_, by rw [hres]⟩
    exact absurd (List.reverse_eq_nil_iff.mp hempty) hne
  · by_cases hguard : (st.polygon.length : ℤ) - ((getSelectedNodes st).reverse).length < 3
    · have hres : deleteSelectedNodes st = st := by
        unfold deleteSelectedNodes
        rw [if_neg hempty, if_pos hguard]
      refine ⟨by rw [hres]; exact h3, fun _ => hres, fun _ hge => ?_, by rw [hres]⟩
      rw [List.length_reverse] at hguard
      omega
    · have hfold : ((getSelectedNodes st).reverse).foldl (fun p i => p.eraseIdx i) st.polygon
          = ((List.range st.handles.length).filter fun i =>
              !((st.handles.getD i default).isSelected)).filterMap fun i => st.polygon[i]? := by
        rw [List.foldl_reverse, hselrfl]
        rw [foldr_eraseIdx_filter_range _ st.handles.length st.polygon (le_of_eq hlen)]
        rw [hlen, List.drop_length, List.append_nil]
      have hres : deleteSelectedNodes st
          = { st with
                polygon := ((getSelectedNodes st).reverse).foldl
                  (fun p i => p.eraseIdx i) st.polygon,
                handles := createNodeHandles (((getSelectedNodes st).reverse).foldl
                  (fun p i => p.eraseIdx i) st.polygon),
                modifiedEmits := st.modifiedEmits + 1 } := by
        unfold deleteSelectedNodes
        rw [if_neg hempty, if_neg hguard]
      have hforall : ∀ i ∈ (List.range st.handles.length).filter
          (fun i => !((st.handles.getD i default).isSelected)), i < st.polygon.length := by
        intro i hi
        have := List.mem_range.mp (List.mem_filter.mp hi).1
        omega
      have hkeeplen : (((List.range st.handles.length).filter fun i =>
            !((st.handles.getD i default).isSelected)).filterMap fun i => st.polygon[i]?).length
          = st.handles.length - (getSelectedNodes st).length := by
        rw [filterMap_getElem_length _ st.polygon hforall, hselrfl]
        rw [length_filter_not_bool (List.range st.handles.length)
          fun i => (st.handles.getD i default).isSelected]
        rw [List.length_range]
      rw [List.length_reverse] at hguard
      have hsle : (getSelectedNodes st).length ≤ st.handles.length := by
        rw [hselrfl]
        calc ((List.range st.handles.length).filter _).length
            ≤ (List.range st.handles.length).length := List.length_filter_le _ _
          _ = st.handles.length := List.length_range st.handles.length
      refine ⟨?_, fun hlt => ?_, fun _ _ => ?_, ?_⟩
      · rw [hres]
        simp only []
        rw [hfold, hkeeplen]
        omega
      · omega
      · rw [hres]
        simp only []
        exact hfold
      · rw [hres]
  
/-- Witness for C4: deleting nodes 0 and 3 of a 5-vertex polygon keeps the
3 unselected vertices, and deleting 2 nodes of a 4-vertex polygon is a
silent no-op. -/
theorem deleteSelectedNodes_min_vertex_witness :
    (deleteSelectedNodes
        ⟨[(0, 0), (1, 0), (2, 0), (3, 0), (4, 0)],
          [⟨true, none⟩, ⟨false, none⟩, ⟨false, none⟩, ⟨true, none⟩, ⟨false, none⟩],
          false, none, 0, []⟩).polygon = [(1, 0), (2, 0), (4, 0)] ∧
    3 ≤ (deleteSelectedNodes
        ⟨[(0, 0), (1, 0), (2, 0), (3, 0), (4, 0)],
          [⟨true, none⟩, ⟨false, none⟩, ⟨false, none⟩, ⟨true, none⟩, ⟨false, none⟩],
          false, none, 0, []⟩).polygon.length ∧
    deleteSelectedNodes
        ⟨[(0, 0), (1, 0), (2, 0), (3, 0)],
          [⟨true, none⟩, ⟨true, none⟩, ⟨false, none⟩, ⟨false, none⟩],
          false, none, 0, []⟩
      = ⟨[(0, 0), (1, 0), (2, 0), (3, 0)],
          [⟨true, none⟩, ⟨true, none⟩, ⟨false, none⟩, ⟨false, none⟩],
          false, none, 0, []⟩ := by
  have h5 := deleteSelectedNodes_min_vertex
    ⟨[(0, 0), (1, 0), (2, 0), (3, 0), (4, 0)],
      [⟨true, none⟩, ⟨false, none⟩, ⟨false, none⟩, ⟨true, none⟩, ⟨false, none⟩],
      false, none, 0, []⟩ (by decide) (by decide)
  have h4 := deleteSelectedNodes_min_vertex
    ⟨[(0, 0), (1, 0), (2, 0), (3, 0)],
      [⟨true, none⟩, ⟨true, none⟩, ⟨false, none⟩, ⟨false, none⟩],
      false, none, 0, []⟩ (by decide) (by decide)
  have hpoly := h5.2.2.1 (by decide) (by decide)
  refine ⟨?_, ?_, h4.2.1 (by decide)⟩
  · rw [hpoly]
    decide
  · rw [hpoly]
    decide

/-! ## C2 — split significance policy -/

/-- Counterexample to C2 as stated: with a 15×10 piece of area 150 and a
300×300 piece of area 90000, the 150-piece meets the minimum-area threshold
but is far below 10% of the total (9015), yet `process_manual_erasing`'s
selection keeps *both* pieces as replacements and flags the erase as a split
(random recoloring): the geometric erase path applies no 10% significance
level at all. -/
theorem erase_significance_counterexample :
    resultPolygons
        [⟨[(1000, 0), (1015, 0), (1015, 10), (1000, 10), (1000, 0)], 150⟩,
         ⟨[(0, 0), (300, 0), (300, 300), (0, 300), (0, 0)], 90000⟩]
      = [⟨[(1000, 0), (1015, 0), (1015, 10), (1000, 10), (1000, 0)], 150⟩,
         ⟨[(0, 0), (300, 0), (300, 300), (0, 300), (0, 0)], 90000⟩] ∧
    minAreaThreshold ≤ (150 : ℚ) ∧
    (150 : ℚ) < ((150 : ℚ) + 90000) * (1 / 10) ∧
    useRandomColors
        [⟨[(1000, 0), (1015, 0), (1015, 10), (1000, 10), (1000, 0)], 150⟩,
         ⟨[(0, 0), (300, 0), (300, 300), (0, 300), (0, 0)], 90000⟩] = true := by
  refine ⟨by decide, by decide, by norm_num, by decide⟩

/-- C2 amended: in the geometric erase path there is no 10%-of-total
significance level — a surviving difference piece is selected as a
replacement iff its area is at least the 100-square-unit minimum, the erase
is treated as a split (random recoloring) iff at least two such pieces
survive, and every created replacement inherits the original label.  The
10% rule exists only in the unused mask-based path `process_erased_region`,
where a component is significant iff its area strictly exceeds 10% of the
total and a true split requires at least two significant components. -/
theorem erase_significance_amended :
    (∀ (pieces : List Piece) (p : Piece),
      p ∈ resultPolygons pieces ↔ p ∈ pieces ∧ minAreaThreshold ≤ p.area) ∧
    (∀ pieces : List Piece,
      useRandomColors pieces = true ↔ 2 ≤ (resultPolygons pieces).length) ∧
    (∀ (randFn : ℕ → ℕ) (text : String) (pen : Pen) (brush : Brush) (useR : Bool)
        (pieces : List Piece) (randIdx nextId : ℕ),
      ∀ a ∈ (createResultItems randFn text pen brush useR pieces randIdx nextId).1,
        a.text = text) ∧
    (∀ (areas : List ℚ) (i : ℕ),
      (i + 1) ∈ significantComponents areas ↔
        i < areas.length ∧ areas.sum * (1 / 10) < areas.getD i 0) ∧
    (∀ areas : List ℚ, trueSplit areas = true ↔ 2 ≤ (significantComponents areas).length) := by
  refine ⟨?_, ?_, ?_, ?_, ?_⟩
  · intro pieces p
    simp [resultPolygons, List.mem_filter]
  · intro pieces
    unfold useRandomColors
    rw [decide_eq_true_eq]
    omega
  · intro randFn text pen brush useR pieces
    induction pieces with
    | nil =>
        intro randIdx nextId a ha
        simp [createResultItems] at ha
    | cons pc rest ih =>
        intro randIdx nextId a ha
        cases hq : shapelyToQPolygonF pc.ring with
        | none =>
            simp only [createResultItems, hq] at ha
            exact ih randIdx nextId a ha
        | some qpolygon =>
            simp only [createResultItems, hq] at ha
            by_cases h3 : 3 ≤ qpolygon.length
            · rw [if_pos h3] at ha
              simp only [List.mem_cons] at ha
              rcases ha with ha | ha
              · by_cases hu : useR = true
                · rw [ha]
                  simp [hu]
                · rw [ha]
                  simp [hu]
              · exact ih _ _ a ha
            · rw [if_neg h3] at ha
              exact ih _ _ a ha
  · intro areas i
    constructor
    · intro h
      simp only [significantComponents, List.mem_filterMap, List.mem_range] at h
      obtain ⟨j, hj, hif⟩ := h
      by_cases hc : areas.sum * (1 / 10) < areas.getD j 0
      · rw [if_pos hc] at hif
        have hji : j + 1 = i + 1 := Option.some.inj hif
        have hji2 : j = i := by omega
        subst hji2
        exact ⟨hj, hc⟩
      · rw [if_neg hc] at hif
        exact absurd hif (by simp)
    · rintro ⟨hi, hc⟩
      simp only [significantComponents, List.mem_filterMap, List.mem_range]
      exact ⟨i, hi, by rw [if_pos hc]⟩
  · intro areas
    unfold trueSplit
    rw [decide_eq_true_eq]
    omega

/-- Witness for C2's amended theorem at concrete inputs: a 150-area piece is
selected among one-piece results, random recoloring triggers on two surviving
pieces, a created replacement carries the original label, component 2 of the
mask path is significant for areas `[150, 90000]`, and `[40000, 50000]` is a
true split. -/
theorem erase_significance_amended_witness :
    (⟨[(1000, 0), (1015, 0), (1015, 10), (1000, 10), (1000, 0)], (150 : ℚ)⟩ : Piece) ∈
      resultPolygons [⟨[(1000, 0), (1015, 0), (1015, 10), (1000, 10), (1000, 0)], 150⟩] ∧
    useRandomColors
        [⟨[(1000, 0), (1015, 0), (1015, 10), (1000, 10), (1000, 0)], 150⟩,
         ⟨[(0, 0), (300, 0), (300, 300), (0, 300), (0, 0)], 90000⟩] = true ∧
    (⟨7, [(0, 0), (20, 0), (0, 20)], "label", ⟨⟨9, 9, 9, 255⟩, 2⟩,
        ⟨⟨9, 9, 9, 50⟩⟩⟩ : Artifact).text = "label" ∧
    (1 + 1) ∈ significantComponents [150, 90000] ∧
    trueSplit [40000, 50000] = true := by
  refine ⟨?_, ?_, ?_, ?_, ?_⟩
  · exact (erase_significance_amended.1 _ _).mpr ⟨by decide, by decide⟩
  · exact (erase_significance_amended.2.1 _).mpr (by decide)
  · exact erase_significance_amended.2.2.1 (fun _ => 9) "label" ⟨⟨9, 9, 9, 255⟩, 2⟩
      ⟨⟨9, 9, 9, 50⟩⟩ false [⟨[(0, 0), (20, 0), (0, 20), (0, 0)], 200⟩] 0 7
      ⟨7, [(0, 0), (20, 0), (0, 20)], "label", ⟨⟨9, 9, 9, 255⟩, 2⟩, ⟨⟨9, 9, 9, 50⟩⟩⟩
      (by decide)
  · exact (erase_significance_amended.2.2.2.1 [150, 90000] 1).mpr
      ⟨by decide, by norm_num⟩
  · apply (erase_significance_amended.2.2.2.2 [40000, 50000]).mpr
    have h1 := (erase_significance_amended.2.2.2.1 [40000, 50000] 0).mpr
      ⟨by decide, by norm_num⟩
    have h2 := (erase_significance_amended.2.2.2.1 [40000, 50000] 1).mpr
      ⟨by decide, by norm_num⟩
    have hsub : [1, 2] ⊆ significantComponents [40000, 50000] := by
      intro x hx
      simp only [List.mem_cons, List.not_mem_nil, or_false] at hx
      rcases hx with rfl | rfl
      · exact h1
      · exact h2
    have hnd : List.Nodup [1, 2] := by decide
    calc 2 = ([1, 2] : List ℕ).length := rfl
      _ ≤ (significantComponents [40000, 50000]).length := List.Subperm.length_le
          (List.subperm_of_subset hnd hsub)

/-! ## C9 — first redo of ErasePolygonCommand is a no-op -/

theorem foldl_restore_list :
    ∀ (datas : List ArtData) (s0 : SceneState) (pre : List Artifact),
      (datas.foldl (fun acc d =>
          ((restoreFromData acc.1 d).1, acc.2 ++ [(restoreFromData acc.1 d).2])) (s0, pre))
        = ({ s0 with
              artifacts := s0.artifacts ++ mkRestoredArts s0.nextId datas,
              nextId := s0.nextId + datas.length },
            pre ++ mkRestoredArts s0.nextId datas) := by
  intro datas
  induction datas with
  | nil => intro s0 pre; simp [mkRestoredArts]
  | cons d rest ih =>
      intro s0 pre
      rw [List.foldl_cons, ih]
      simp [restoreFromData, mkRestoredArts, List.append_assoc]
      omega

theorem range_map_getD (datas : List ArtData) :
    (List.range datas.length).map (fun i => datas.getD i default) = datas := by
  apply List.ext_getElem
  · simp
  · intro i h1 h2
    simp only [List.getElem_map, List.getElem_range]
    exact List.getD_eq_getElem datas default h2

/-- C9: an `ErasePolygonCommand` freshly built by the constructor has
`_redo_already_applied` set, so its first `redo()` only clears the flag and
leaves the scene exactly unchanged (pushing it onto a `QUndoStack` does not
re-apply the erase); a later `redo()` — the flag now cleared — with the
original items present in the scene and the new items absent removes every
original item and recreates all new items from the stored snapshots. -/
theorem eraseCmdRedo_first_noop_then_applies :
    (∀ (oi ni : List Artifact) (od nd : List ArtData) (s : SceneState),
      eraseCmdRedo (mkEraseCmd oi ni od nd) s = (⟨oi, ni, od, nd, false⟩, s)) ∧
    (∀ (cmd : EraseCmd) (s : SceneState),
      cmd.redoAlreadyApplied = false →
      (∀ it ∈ cmd.originalItems, (s.artifacts.any fun a => a.id = it.id) = true) →
      cmd.originalItems.length = cmd.originalData.length →
      (∀ it ∈ cmd.newItems, (s.artifacts.any fun a => a.id = it.id) = false) →
      (eraseCmdRedo cmd s).2.artifacts
          = (s.artifacts.filter fun a => ¬ cmd.originalItems.any fun b => b.id = a.id)
              ++ mkRestoredArts s.nextId cmd.newData ∧
        (eraseCmdRedo cmd s).2.undoCount = s.undoCount ∧
        (eraseCmdRedo cmd s).1.newItems = mkRestoredArts s.nextId cmd.newData) := by
  constructor
  · intro oi ni od nd s
    rfl
  · intro cmd s hflag hOrig hlenEq hNew
    have h1 : (cmd.originalItems.filter fun item =>
        s.artifacts.any fun a => a.id = item.id) = cmd.originalItems :=
      List.filter_eq_self.mpr hOrig
    have hAnyFiltered : ∀ it ∈ cmd.newItems,
        (((removeItems s cmd.originalItems).artifacts).any fun a => a.id = it.id) = false := by
      intro it hit
      rw [List.any_eq_false]
      intro a ha
      have hmem : a ∈ s.artifacts := (List.mem_filter.mp ha).1
      have h0 := hNew it hit
      rw [List.any_eq_false] at h0
      exact h0 a hmem
    have h2 : (cmd.newItems.filter fun item =>
        ((removeItems s cmd.originalItems).artifacts).any fun a => a.id = item.id) = [] := by
      rw [List.filter_eq_nil_iff]
      intro it hit
      simp [hAnyFiltered it hit]
    simp only [eraseCmdRedo, hflag, Bool.false_eq_true, if_false, h1,
      hlenEq, if_neg (lt_irrefl cmd.originalData.length), h2]
    simp only [List.get?_nil]
    have hconv : (List.range cmd.newData.length).foldl
        (fun acc i => ((restoreFromData acc.1 (cmd.newData.getD i default)).1,
          acc.2 ++ [(restoreFromData acc.1 (cmd.newData.getD i default)).2]))
        ((removeItems s cmd.originalItems), [])
        = ({ removeItems s cmd.originalItems with
              artifacts := (removeItems s cmd.originalItems).artifacts
                ++ mkRestoredArts (removeItems s cmd.originalItems).nextId cmd.newData,
              nextId := (removeItems s cmd.originalItems).nextId + cmd.newData.length },
            [] ++ mkRestoredArts (removeItems s cmd.originalItems).nextId cmd.newData) := by
      rw [← List.foldl_map (fun i => cmd.newData.getD i default)
        (fun acc d => ((restoreFromData acc.1 d).1, acc.2 ++ [(restoreFromData acc.1 d).2])),
        range_map_getD, foldl_restore_list]
    rw [hconv]
    refine ⟨?_, rfl, by simp [removeItems]⟩
    simp [removeItems]

/-- Witness for C9: a freshly constructed command's first redo leaves a
concrete one-artifact scene untouched, and a flag-cleared redo on that scene
removes the original (id 0) and recreates the new polygon from its snapshot
(fresh id 6). -/
theorem eraseCmdRedo_first_noop_then_applies_witness :
    eraseCmdRedo
        (mkEraseCmd [⟨0, [(0, 0), (1, 0), (1, 1)], "t", ⟨⟨1, 2, 3, 255⟩, 2⟩, ⟨⟨1, 2, 3, 50⟩⟩⟩]
          [⟨5, [(0, 0), (2, 0), (2, 2)], "t", ⟨⟨1, 2, 3, 255⟩, 2⟩, ⟨⟨1, 2, 3, 50⟩⟩⟩]
          [⟨[(0, 0), (1, 0), (1, 1)], "t", ⟨⟨1, 2, 3, 255⟩, 2⟩, ⟨⟨1, 2, 3, 50⟩⟩⟩]
          [⟨[(0, 0), (2, 0), (2, 2)], "t", ⟨⟨1, 2, 3, 255⟩, 2⟩, ⟨⟨1, 2, 3, 50⟩⟩⟩])
        ⟨ViewerMode.normal, 5, none, false, [], none, false, [], false, false, false,
          [⟨0, [(0, 0), (1, 0), (1, 1)], "t", ⟨⟨1, 2, 3, 255⟩, 2⟩, ⟨⟨1, 2, 3, 50⟩⟩⟩], 6, 0⟩
      = (⟨[⟨0, [(0, 0), (1, 0), (1, 1)], "t", ⟨⟨1, 2, 3, 255⟩, 2⟩, ⟨⟨1, 2, 3, 50⟩⟩⟩],
          [⟨5, [(0, 0), (2, 0), (2, 2)], "t", ⟨⟨1, 2, 3, 255⟩, 2⟩, ⟨⟨1, 2, 3, 50⟩⟩⟩],
          [⟨[(0, 0), (1, 0), (1, 1)], "t", ⟨⟨1, 2, 3, 255⟩, 2⟩, ⟨⟨1, 2, 3, 50⟩⟩⟩],
          [⟨[(0, 0), (2, 0), (2, 2)], "t", ⟨⟨1, 2, 3, 255⟩, 2⟩, ⟨⟨1, 2, 3, 50⟩⟩⟩], false⟩,
          ⟨ViewerMode.normal, 5, none, false, [], none, false, [], false, false, false,
            [⟨0, [(0, 0), (1, 0), (1, 1)], "t", ⟨⟨1, 2, 3, 255⟩, 2⟩, ⟨⟨1, 2, 3, 50⟩⟩⟩], 6, 0⟩) ∧
    (eraseCmdRedo
        ⟨[⟨0, [(0, 0), (1, 0), (1, 1)], "t", ⟨⟨1, 2, 3, 255⟩, 2⟩, ⟨⟨1, 2, 3, 50⟩⟩⟩],
          [⟨5, [(0, 0), (2, 0), (2, 2)], "t", ⟨⟨1, 2, 3, 255⟩, 2⟩, ⟨⟨1, 2, 3, 50⟩⟩⟩],
          [⟨[(0, 0), (1, 0), (1, 1)], "t", ⟨⟨1, 2, 3, 255⟩, 2⟩, ⟨⟨1, 2, 3, 50⟩⟩⟩],
          [⟨[(0, 0), (2, 0), (2, 2)], "t", ⟨⟨1, 2, 3, 255⟩, 2⟩, ⟨⟨1, 2, 3, 50⟩⟩⟩], false⟩
        ⟨ViewerMode.normal, 5, none, false, [], none, false, [], false, false, false,
          [⟨0, [(0, 0), (1, 0), (1, 1)], "t", ⟨⟨1, 2, 3, 255⟩, 2⟩, ⟨⟨1, 2, 3, 50⟩⟩⟩],
          6, 0⟩).2.artifacts
      = [⟨6, [(0, 0), (2, 0), (2, 2)], "t", ⟨⟨1, 2, 3, 255⟩, 2⟩, ⟨⟨1, 2, 3, 50⟩⟩⟩] := by
  constructor
  · exact eraseCmdRedo_first_noop_then_applies.1 _ _ _ _ _
  · have h := (eraseCmdRedo_first_noop_then_applies.2
      ⟨[⟨0, [(0, 0), (1, 0), (1, 1)], "t", ⟨⟨1, 2, 3, 255⟩, 2⟩, ⟨⟨1, 2, 3, 50⟩⟩⟩],
        [⟨5, [(0, 0), (2, 0), (2, 2)], "t", ⟨⟨1, 2, 3, 255⟩, 2⟩, ⟨⟨1, 2, 3, 50⟩⟩⟩],
        [⟨[(0, 0), (1, 0), (1, 1)], "t", ⟨⟨1, 2, 3, 255⟩, 2⟩, ⟨⟨1, 2, 3, 50⟩⟩⟩],
        [⟨[(0, 0), (2, 0), (2, 2)], "t", ⟨⟨1, 2, 3, 255⟩, 2⟩, ⟨⟨1, 2, 3, 50⟩⟩⟩], false⟩
      ⟨ViewerMode.normal, 5, none, false, [], none, false, [], false, false, false,
        [⟨0, [(0, 0), (1, 0), (1, 1)], "t", ⟨⟨1, 2, 3, 255⟩, 2⟩, ⟨⟨1, 2, 3, 50⟩⟩⟩], 6, 0⟩
      rfl (by decide) rfl (by decide)).1
    rw [h]
    decide

/-! ## C1 — partial erase with one surviving piece -/

/-- C1 (code bug, evaluated at the failing input): a 200×200 square at
(100,100)-(300,300) is hit by an eraser stroke whose buffered difference
yields exactly one surviving piece (an L-shape of area 36400, far above the
100 minimum).  The spec expects the original artifact to be replaced in
place with label, pen and brush preserved; instead `process_manual_erasing`
reads the non-existent attribute `background_item` on the removal path, the
raised `AttributeError` is swallowed by the surrounding handler, and the
scene is left completely unchanged — no replacement is ever created. -/
theorem partial_erase_aborts_with_attribute_error :
    (stopErasing ⟨fun _ _ => true, fun _ _ => true, fun _ _ _ => false⟩
        (⟨fun _ _ => some (), fun _ _ =>
          [⟨[(160, 100), (300, 100), (300, 300), (100, 300), (100, 160), (160, 160), (160, 100)],
            36400⟩]⟩ : ShapelyOracle Unit) (fun _ => 7)
        ⟨ViewerMode.eraser, 5, some [(120, 120), (180, 120), (180, 180)], true,
          [(120, 120), (180, 120), (180, 180)], none, false, [], false, false, false,
          [⟨0, [(100, 100), (300, 100), (300, 300), (100, 300)], "artifact 1",
            ⟨⟨255, 0, 0, 255⟩, 2⟩, ⟨⟨255, 0, 0, 50⟩⟩⟩], 1, 0⟩).artifacts
      = [⟨0, [(100, 100), (300, 100), (300, 300), (100, 300)], "artifact 1",
          ⟨⟨255, 0, 0, 255⟩, 2⟩, ⟨⟨255, 0, 0, 50⟩⟩⟩] ∧
    processOneTarget (fun _ => 7)
        ⟨0, [(100, 100), (300, 100), (300, 300), (100, 300)], "artifact 1",
          ⟨⟨255, 0, 0, 255⟩, 2⟩, ⟨⟨255, 0, 0, 50⟩⟩⟩ true
        [⟨[(160, 100), (300, 100), (300, 300), (100, 300), (100, 160), (160, 160), (160, 100)],
          36400⟩] 0 1
      = Except.error "AttributeError: ArtifactPolygonItem has no attribute background_item" := by
  constructor
  · decide
  · rfl

/-! ## C3 — undo entry for a committed erase -/

/-- C3 (code bug, evaluated at the failing input): an eraser gesture over a
square whose difference yields two large surviving pieces — a gesture the
spec says must commit a split wrapped in exactly one undo entry — leaves the
application undo ledger empty and, because of the `background_item`
`AttributeError`, even leaves the artifact set unchanged:
`process_manual_erasing` never constructs or pushes any undo command
(`ErasePolygonCommand` is instantiated only by tests). -/
theorem erase_creates_no_undo_entry :
    (stopErasing ⟨fun _ _ => true, fun _ _ => true, fun _ _ _ => false⟩
        (⟨fun _ _ => some (), fun _ _ =>
          [⟨[(100, 100), (190, 100), (190, 300), (100, 300), (100, 100)], 18000⟩,
           ⟨[(210, 100), (300, 100), (300, 300), (210, 300), (210, 100)], 18000⟩]⟩ :
          ShapelyOracle Unit) (fun _ => 11)
        ⟨ViewerMode.eraser, 10, some [(200, 90), (200, 200), (200, 310)], true,
          [(200, 90), (200, 200), (200, 310)], none, false, [], false, false, false,
          [⟨3, [(100, 100), (300, 100), (300, 300), (100, 300)], "vessel",
            ⟨⟨0, 128, 0, 255⟩, 2⟩, ⟨⟨0, 128, 0, 50⟩⟩⟩], 4, 0⟩).undoCount = 0 ∧
    (stopErasing ⟨fun _ _ => true, fun _ _ => true, fun _ _ _ => false⟩
        (⟨fun _ _ => some (), fun _ _ =>
          [⟨[(100, 100), (190, 100), (190, 300), (100, 300), (100, 100)], 18000⟩,
           ⟨[(210, 100), (300, 100), (300, 300), (210, 300), (210, 100)], 18000⟩]⟩ :
          ShapelyOracle Unit) (fun _ => 11)
        ⟨ViewerMode.eraser, 10, some [(200, 90), (200, 200), (200, 310)], true,
          [(200, 90), (200, 200), (200, 310)], none, false, [], false, false, false,
          [⟨3, [(100, 100), (300, 100), (300, 300), (100, 300)], "vessel",
            ⟨⟨0, 128, 0, 255⟩, 2⟩, ⟨⟨0, 128, 0, 50⟩⟩⟩], 4, 0⟩).artifacts
      = [⟨3, [(100, 100), (300, 100), (300, 300), (100, 300)], "vessel",
          ⟨⟨0, 128, 0, 255⟩, 2⟩, ⟨⟨0, 128, 0, 50⟩⟩⟩] := by
  constructor
  · decide
  · decide
